import Mathlib

/-!
Verification of the script interpreter in `src/script/interpreter.rs`.

Shallow embedding conventions:
* Bytes are `Nat` (a byte string is a `List Nat`; the code only reads,
  compares and masks bytes, all of which agree with the `u8` semantics on
  values below 256, and no wrapping arithmetic occurs).
* The Rust `Vec<Vec<u8>>` operand stack is a `List (List Nat)` whose HEAD is
  the top of the stack: `Vec::push` is `::`, `Vec::pop` takes the head,
  `Vec::last` is the head.
* Fallible Rust functions returning `Result<T, Error>` become
  `Except Error T`; a possible `panic!` (out-of-bounds slice indexing)
  is modelled by `Option`.
* Types that live in sibling modules of the repository (`script::Opcode`,
  `script::Error`, `script::VerificationFlags`, `script::Num`, the
  tokenizer producing `Instruction`s, and `keys::Signature::check_low_s`)
  are not part of `src/`; they are modelled from the spec and marked so.
-/

/- Modelled from the spec: `script::Opcode` values are the byte values of
the opcode tags (the spec fixes that the direct push opcode's numeric value
equals the payload length, and that the small-integer opcodes are
consecutive); the numeric values are the standard ones for this script
language, carried as plain `Nat`s. -/

/-- The dedicated "push empty bytes" opcode. -/
def OP_0 : Nat := 0x00
/-- The direct push of a single byte (numeric value 1 = payload length). -/
def OP_PUSHBYTES_1 : Nat := 0x01
/-- Push with a 1-byte length prefix. -/
def OP_PUSHDATA1 : Nat := 0x4c
/-- Push with a 2-byte little-endian length prefix. -/
def OP_PUSHDATA2 : Nat := 0x4d
/-- Push with a 4-byte little-endian length prefix. -/
def OP_PUSHDATA4 : Nat := 0x4e
/-- The dedicated "negative one" opcode. -/
def OP_1NEGATE : Nat := 0x4f
/-- The dedicated small-integer opcode for 1 (OP_2 .. OP_16 follow it). -/
def OP_1 : Nat := 0x51
/-- The dedicated small-integer opcode for 16. -/
def OP_16 : Nat := 0x60
def OP_NOP : Nat := 0x61
def OP_RETURN : Nat := 0x6a
def OP_EQUAL : Nat := 0x87
def OP_EQUALVERIFY : Nat := 0x88
def OP_NOP1 : Nat := 0xb0
def OP_CHECKLOCKTIMEVERIFY : Nat := 0xb1
def OP_NOP4 : Nat := 0xb3
def OP_NOP5 : Nat := 0xb4
def OP_NOP6 : Nat := 0xb5
def OP_NOP7 : Nat := 0xb6
def OP_NOP8 : Nat := 0xb7
def OP_NOP9 : Nat := 0xb8
def OP_NOP10 : Nat := 0xb9

/-- Modelled from the spec: `script::Error`, the closed payload-free set of
consensus-rule-violation kinds (§7 of the spec); the constructors are the
ones named by the interpreter plus the tokenizer's malformed-encoding error
and the number codec's two failure kinds. -/
inductive Error
  | ScriptSize
  | BadInstruction
  | Minimaldata
  | InvalidStackOperation
  | NegativeLocktime
  | UnsatisfiedLocktime
  | DiscourageUpgradableNops
  | ReturnOpcode
  | EqualVerify
  | SignatureDer
  | SignatureHighS
  | SignatureHashtype
  | PubkeyType
  | NumberOverflow
  | NumberNotMinimallyEncoded
  deriving DecidableEq

/-- The `SignatureVersion` enum from `interpreter.rs` (lines 15-19). -/
inductive SignatureVersion
  | Base
  | WitnessV0
  deriving DecidableEq

/-- Modelled from the spec: `script::VerificationFlags`, the record of named
booleans, one per independently toggleable rule (§4.2); only the fields the
interpreter consults appear. Field order: p2sh, strictenc, dersig, low_s,
minimaldata, clocktimeverify, discourage_upgradable_nops. -/
structure VerificationFlags where
  verify_p2sh : Bool
  verify_strictenc : Bool
  verify_dersig : Bool
  verify_low_s : Bool
  verify_minimaldata : Bool
  verify_clocktimeverify : Bool
  verify_discourage_upgradable_nops : Bool
  deriving DecidableEq

/-- The `VerificationFlags::default()` record: every rule off. -/
def no_flags : VerificationFlags := ⟨false, false, false, false, false, false, false⟩

/-- The flags of the repository's `test_push_data` test: only `verify_p2sh`. -/
def push_test_flags : VerificationFlags := ⟨true, false, false, false, false, false, false⟩

/-- Flags with only minimal-push enforcement (`verify_minimaldata`) on. -/
def minimal_push_flags : VerificationFlags := ⟨false, false, false, false, true, false, false⟩

/-- The `SignatureChecker` trait (lines 21-33): a record of the three
capabilities; `Num` arguments are modelled as `Int` values. -/
structure SignatureChecker where
  check_signature : List Nat → List Nat → List Nat → SignatureVersion → Bool
  check_lock_time : Int → Bool
  check_sequence : Int → Bool

/-- The `NoopSignatureChecker` (lines 35-49): denies every request. -/
def NoopSignatureChecker : SignatureChecker :=
  ⟨fun _ _ _ _ => false, fun _ => false, fun _ => false⟩

/-- The tokenizer's three-case instruction union (spec §3): `PushValue`
carries an opcode and its canonical numeric bytes, `PushBytes` an opcode and
the raw pushed bytes, `Normal` a bare opcode. -/
inductive Instruction
  | PushValue (opcode : Nat) (num : List Nat)
  | PushBytes (opcode : Nat) (bytes : List Nat)
  | Normal (opcode : Nat)
  deriving DecidableEq

/-- Helper for `is_valid_signature_encoding?`: the S-element checks of
`interpreter.rs` lines 165-186 (type tag, non-zero length, sign bit,
redundant-padding rule), sharing the behaviour of the two control-flow paths
that reach them. `none` models an out-of-bounds index panic. -/
def sig_s_checks (sig : List Nat) (len_r len_s : Nat) : Option Bool :=
  -- Check whether the S element is an integer (line 166).
  (sig[len_r + 4]?).bind fun t =>
  if t ≠ 2 then some false
  -- Zero-length integers are not allowed for S (line 171).
  else if len_s = 0 then some false
  else (sig[len_r + 6]?).bind fun s6 =>
  -- Negative numbers are not allowed for S (line 176).
  if s6 &&& 0x80 ≠ 0 then some false
  -- Padding rule for S (line 182); note the Rust `!` here is the BITWISE
  -- complement on `u8`, so `!(sig[len_r + 7] & 0x80)` is `0xff ^^^ _`.
  else if 1 < len_s ∧ s6 = 0 then
    (sig[len_r + 7]?).bind fun s7 =>
    if (0xff ^^^ (s7 &&& 0x80)) ≠ 0 then some false else some true
  else some true

/-- The function `is_valid_signature_encoding` (lines 100-187), with `Option` recording
whether every slice index is in bounds (`none` = the Rust code would
panic; the totality theorem shows this never happens). -/
def is_valid_signature_encoding? (sig : List Nat) : Option Bool :=
  -- Minimum and maximum size constraints (line 114).
  if sig.length < 9 ∨ 73 < sig.length then some false
  else (sig[0]?).bind fun s0 =>
  -- A signature is of type 0x30 (line 119).
  if s0 ≠ 0x30 then some false
  else (sig[1]?).bind fun s1 =>
  -- Make sure the length covers the entire signature (line 124).
  if s1 ≠ sig.length - 3 then some false
  -- Extract the length of the R element (line 129).
  else (sig[3]?).bind fun len_r =>
  -- Make sure the length of the S element is still inside (line 132).
  if sig.length ≤ len_r + 5 then some false
  -- Extract the length of the S element (line 137).
  else (sig[len_r + 5]?).bind fun len_s =>
  -- Verify that the lengths sum up to the signature length (line 140).
  if len_r + len_s + 7 ≠ sig.length then some false
  else (sig[2]?).bind fun s2 =>
  -- Check whether the R element is an integer (line 145).
  if s2 ≠ 2 then some false
  -- Zero-length integers are not allowed for R (line 150).
  else if len_r = 0 then some false
  else (sig[4]?).bind fun s4 =>
  -- Negative numbers are not allowed for R (line 155).
  if s4 &&& 0x80 ≠ 0 then some false
  -- Padding rule for R (line 161); the Rust `!` is the bitwise complement
  -- on `u8`, so `!(sig[5] & 0x80)` is `0xff ^^^ (sig[5] &&& 0x80)`.
  else if 1 < len_r ∧ s4 = 0 then
    (sig[5]?).bind fun s5 =>
    if (0xff ^^^ (s5 &&& 0x80)) ≠ 0 then some false
    else sig_s_checks sig len_r len_s
  else sig_s_checks sig len_r len_s

/-- The `bool`-valued `is_valid_signature_encoding`; by the totality theorem
the `getD` default is never consulted. -/
def is_valid_signature_encoding (sig : List Nat) : Bool :=
  (is_valid_signature_encoding? sig).getD false

/-- The function `is_defined_hashtype_signature` (lines 202-212): note the source tests
`n_hashtype < All && n_hashtype > Single` with a conjunction, and
`& !(0x80u8)` is the byte mask `&&& 0x7f`. -/
def is_defined_hashtype_signature (sig : List Nat) : Bool :=
  if sig.isEmpty then false
  else
    let n_hashtype := (sig.getLast?.getD 0) &&& 0x7f
    if n_hashtype < 1 ∧ 3 < n_hashtype then false
    else true

/-- The function `is_low_der_signature` (lines 189-200). The lower-half-of-curve-order
test `Signature::check_low_s` lives in the external `keys` crate; it is
modelled from the spec as an arbitrary boolean predicate `low_s` on the
signature bytes, passed as a parameter. -/
def is_low_der_signature (low_s : List Nat → Bool) (sig : List Nat) : Except Error Bool :=
  if ¬ is_valid_signature_encoding sig then .error Error.SignatureDer
  else if ¬ low_s sig then .error Error.SignatureHighS
  else .ok true

/-- The function `check_signature_encoding` (lines 214-231). The `bind` mirrors the
`try!` in `flags.verify_low_s && !try!(is_low_der_signature(sig))`: the
inner call is made (and its error propagated) only when `verify_low_s` is
set, and the placeholder `.ok true` taken when it is off is never consulted
by the guarded condition. -/
def check_signature_encoding (low_s : List Nat → Bool) (sig : List Nat)
    (flags : VerificationFlags) : Except Error Bool :=
  if sig.isEmpty then .ok true
  else if (flags.verify_dersig || flags.verify_low_s || flags.verify_strictenc)
      && !(is_valid_signature_encoding sig) then
    .error Error.SignatureDer
  else
    (if flags.verify_low_s then is_low_der_signature low_s sig else .ok true).bind fun b =>
      if flags.verify_low_s && !b then .ok false
      else if flags.verify_strictenc && !(is_defined_hashtype_signature sig) then
        .error Error.SignatureHashtype
      else .ok true

/-- The function `check_minimal_push` (lines 241-263). -/
def check_minimal_push (data : List Nat) (opcode : Nat) : Bool :=
  if data.isEmpty then
    -- Could have used OP_0.
    decide (opcode = OP_0)
  else if data.length = 1 ∧ 1 ≤ data.getD 0 0 ∧ data.getD 0 0 ≤ 16 then
    -- Could have used OP_1 .. OP_16.
    decide (opcode = OP_1 + (data.getD 0 0 - 1))
  else if data.length = 1 ∧ data.getD 0 0 = 0x81 then
    -- Could have used OP_1NEGATE.
    decide (opcode = OP_1NEGATE)
  else if data.length ≤ 75 then
    -- Could have used a direct push (opcode = number of bytes pushed).
    decide (opcode = data.length)
  else if data.length ≤ 255 then
    -- Could have used OP_PUSHDATA1.
    decide (opcode = OP_PUSHDATA1)
  else if data.length ≤ 65535 then
    -- Could have used OP_PUSHDATA2.
    decide (opcode = OP_PUSHDATA2)
  else true

/-- Modelled from the spec: `Num::from_slice(data, require_minimal, max_size)`
(§3, §4.1): little-endian magnitude with the sign in the high bit of the
final byte; rejects a length above `max_size` and, when minimality is
required, a removable leading zero byte (a final byte whose low seven bits
are zero, unless the previous byte has its high bit set). -/
def num_from_slice (data : List Nat) (require_minimal : Bool) (max_size : Nat) :
    Except Error Int :=
  if max_size < data.length then .error Error.NumberOverflow
  else match data.getLast? with
  | none => .ok 0
  | some last =>
    if require_minimal ∧ last &&& 0x7f = 0 ∧
        (data.length = 1 ∨ (data.getD (data.length - 2) 0) &&& 0x80 = 0) then
      .error Error.NumberNotMinimallyEncoded
    else
      let mag : Nat :=
        (List.range data.length).foldl
          (fun acc i =>
            acc + (if i = data.length - 1 then last &&& 0x7f else data.getD i 0) * 256 ^ i)
          0
      if last &&& 0x80 ≠ 0 then .ok (-(mag : Int)) else .ok (mag : Int)

/-- Modelled from the spec: the external tokenizer (§3, §6) that turns raw
script bytes into `Instruction`s, with fuel for structural recursion; one
byte is always consumed per step, so `fuel = length` (as supplied by
`parse_script`) never runs out. Direct pushes use opcodes 1-75 (the opcode
value is the payload length), the three PUSHDATA opcodes carry 1-, 2- and
4-byte little-endian length prefixes, `OP_0`/`OP_1NEGATE`/`OP_1`..`OP_16`
become `PushValue` with their canonical numeric bytes, and every other byte
is a `Normal` opcode. A truncated push surfaces `BadInstruction`. -/
def parse_go : Nat → List Nat → Except Error (List Instruction)
  | _, [] => .ok []
  | 0, _ :: _ => .error Error.BadInstruction
  | fuel + 1, b :: rest =>
    if b = OP_0 then
      (parse_go fuel rest).map (Instruction.PushValue OP_0 [] :: ·)
    else if 1 ≤ b ∧ b ≤ 75 then
      if rest.length < b then .error Error.BadInstruction
      else (parse_go fuel (rest.drop b)).map (Instruction.PushBytes b (rest.take b) :: ·)
    else if b = OP_PUSHDATA1 then
      if rest.length < 1 then .error Error.BadInstruction
      else
        let n := rest.getD 0 0
        let body := rest.drop 1
        if body.length < n then .error Error.BadInstruction
        else (parse_go fuel (body.drop n)).map (Instruction.PushBytes OP_PUSHDATA1 (body.take n) :: ·)
    else if b = OP_PUSHDATA2 then
      if rest.length < 2 then .error Error.BadInstruction
      else
        let n := rest.getD 0 0 + 256 * rest.getD 1 0
        let body := rest.drop 2
        if body.length < n then .error Error.BadInstruction
        else (parse_go fuel (body.drop n)).map (Instruction.PushBytes OP_PUSHDATA2 (body.take n) :: ·)
    else if b = OP_PUSHDATA4 then
      if rest.length < 4 then .error Error.BadInstruction
      else
        let n := rest.getD 0 0 + 256 * rest.getD 1 0 + 65536 * rest.getD 2 0
          + 16777216 * rest.getD 3 0
        let body := rest.drop 4
        if body.length < n then .error Error.BadInstruction
        else (parse_go fuel (body.drop n)).map (Instruction.PushBytes OP_PUSHDATA4 (body.take n) :: ·)
    else if b = OP_1NEGATE then
      (parse_go fuel rest).map (Instruction.PushValue OP_1NEGATE [0x81] :: ·)
    else if OP_1 ≤ b ∧ b ≤ OP_16 then
      (parse_go fuel rest).map (Instruction.PushValue b [b - 0x50] :: ·)
    else
      (parse_go fuel rest).map (Instruction.Normal b :: ·)

/-- Modelled from the spec: tokenize a whole script. -/
def parse_script (bytes : List Nat) : Except Error (List Instruction) :=
  parse_go bytes.length bytes

/-- Modelled from the spec: `script::MAX_SCRIPT_SIZE`, the fixed script-size
ceiling (standard value 10000 bytes). -/
def MAX_SCRIPT_SIZE : Nat := 10000

/-- One iteration of the dispatch loop of `eval_script` (lines 276-362):
the body of the `for` over one instruction. `.ok none` models `break`
(taken only by `OP_NOP`, which leaves the stack untouched); `.ok (some s)`
continues with stack `s`; `.error e` models `return Err(e)`. -/
def run_step (flags : VerificationFlags) (checker : SignatureChecker)
    (instr : Instruction) (stack : List (List Nat)) :
    Except Error (Option (List (List Nat))) :=
  match instr with
  | .PushValue _opcode num => .ok (some (num :: stack))
  | .PushBytes opcode bytes =>
    if flags.verify_minimaldata && !(check_minimal_push bytes opcode) then
      .error Error.Minimaldata
    else .ok (some (bytes :: stack))
  | .Normal opcode =>
    if opcode = OP_NOP then
      -- line 289: `Opcode::OP_NOP => break`
      .ok none
    else if opcode = OP_CHECKLOCKTIMEVERIFY then
      -- lines 290-327; note the source does NOT skip the remainder when
      -- `verify_clocktimeverify` is off: it only errors under the
      -- discouragement flag, then falls through to the full check.
      if !flags.verify_clocktimeverify && flags.verify_discourage_upgradable_nops then
        .error Error.DiscourageUpgradableNops
      else
        match stack with
        | [] => .error Error.InvalidStackOperation
        | top :: _ =>
          match num_from_slice top flags.verify_minimaldata 5 with
          | .error e => .error e
          | .ok lock_time =>
            if lock_time < 0 then .error Error.NegativeLocktime
            else if !(checker.check_lock_time lock_time) then
              .error Error.UnsatisfiedLocktime
            else .ok (some stack)
    else if opcode ∈ [OP_NOP1, OP_NOP4, OP_NOP5, OP_NOP6, OP_NOP7, OP_NOP8,
        OP_NOP9, OP_NOP10] then
      -- lines 328-333
      if flags.verify_discourage_upgradable_nops then
        .error Error.DiscourageUpgradableNops
      else .ok (some stack)
    else if opcode = OP_RETURN then
      .error Error.ReturnOpcode
    else if opcode = OP_EQUAL then
      -- lines 337-348: requires two items, pops both, pushes [1] or [0].
      match stack with
      | a :: b :: rest => .ok (some ((if a = b then [1] else [0]) :: rest))
      | _ => .error Error.InvalidStackOperation
    else if opcode = OP_EQUALVERIFY then
      -- lines 349-358
      match stack with
      | a :: b :: rest => if a = b then .ok (some rest) else .error Error.EqualVerify
      | _ => .error Error.InvalidStackOperation
    else
      -- line 359: all unlisted opcodes are no-op placeholders.
      .ok (some stack)

/-- The `for` loop of `eval_script`: run instructions until exhaustion,
`break`, or the first error. -/
def eval_loop (flags : VerificationFlags) (checker : SignatureChecker) :
    List Instruction → List (List Nat) → Except Error (List (List Nat))
  | [], stack => .ok stack
  | instr :: rest, stack =>
    match run_step flags checker instr stack with
    | .error e => .error e
    | .ok none => .ok stack
    | .ok (some stack2) => eval_loop flags checker rest stack2

/-- The `success` computation of `eval_script` (lines 364-367): stack
non-empty and top element not all zero bytes. The source computes this
value and then ignores it. -/
def script_verdict : List (List Nat) → Bool
  | [] => false
  | last :: _ => decide (last ≠ List.replicate last.length 0)

/-- The function `eval_script` (lines 265-370): size check, then the dispatch loop over
the tokenized instructions, returning the final `Ok` boolean together with
the final state of the caller-owned stack. Faithful to the source, the
returned boolean is the literal `true` of line 369 — not the computed
`success` (`script_verdict`) of lines 364-367, which the source drops. -/
def eval_script (stack : List (List Nat)) (script : List Nat)
    (flags : VerificationFlags) (checker : SignatureChecker)
    (_version : SignatureVersion) : Except Error (Bool × List (List Nat)) :=
  if MAX_SCRIPT_SIZE < script.length then .error Error.ScriptSize
  else
    match parse_script script with
    | .error e => .error e
    | .ok instrs =>
      match eval_loop flags checker instrs stack with
      | .error e => .error e
      | .ok stack2 => .ok (true, stack2)

/-! ## Helper lemmas -/

/-- Every index the S-element checks read is inside the signature once the
length bookkeeping of the preceding checks holds. -/
theorem sig_s_checks_isSome (sig : List Nat) (len_r len_s : Nat)
    (hlen : len_r + len_s + 7 = sig.length) :
    (sig_s_checks sig len_r len_s).isSome = true := by
  unfold sig_s_checks
  cases h4 : sig[len_r + 4]? with
  | none => rw [List.getElem?_eq_none_iff] at h4; omega
  | some t =>
    simp only [Option.some_bind]
    by_cases ht : t ≠ 2
    · rw [if_pos ht]; rfl
    · rw [if_neg ht]
      by_cases hs : len_s = 0
      · rw [if_pos hs]; rfl
      · rw [if_neg hs]
        cases h6 : sig[len_r + 6]? with
        | none => rw [List.getElem?_eq_none_iff] at h6; omega
        | some s6 =>
          simp only [Option.some_bind]
          by_cases hneg : s6 &&& 0x80 ≠ 0
          · rw [if_pos hneg]; rfl
          · rw [if_neg hneg]
            by_cases hpad : 1 < len_s ∧ s6 = 0
            · rw [if_pos hpad]
              cases h7 : sig[len_r + 7]? with
              | none => rw [List.getElem?_eq_none_iff] at h7; omega
              | some s7 =>
                simp only [Option.some_bind]
                by_cases hz : (0xff ^^^ (s7 &&& 0x80)) ≠ 0
                · rw [if_pos hz]; rfl
                · rw [if_neg hz]; rfl
            · rw [if_neg hpad]; rfl

/-- Every slice index of `is_valid_signature_encoding` is in bounds on every
input: the function never reaches the `none` (panic) outcome. -/
theorem sig_encoding_isSome (sig : List Nat) :
    (is_valid_signature_encoding? sig).isSome = true := by
  unfold is_valid_signature_encoding?
  by_cases hrange : sig.length < 9 ∨ 73 < sig.length
  · rw [if_pos hrange]; rfl
  · rw [if_neg hrange]
    push_neg at hrange
    cases h0 : sig[0]? with
    | none => rw [List.getElem?_eq_none_iff] at h0; omega
    | some s0 =>
      simp only [Option.some_bind]
      by_cases ht0 : s0 ≠ 0x30
      · rw [if_pos ht0]; rfl
      · rw [if_neg ht0]
        cases h1 : sig[1]? with
        | none => rw [List.getElem?_eq_none_iff] at h1; omega
        | some s1 =>
          simp only [Option.some_bind]
          by_cases ht1 : s1 ≠ sig.length - 3
          · rw [if_pos ht1]; rfl
          · rw [if_neg ht1]
            cases h3 : sig[3]? with
            | none => rw [List.getElem?_eq_none_iff] at h3; omega
            | some len_r =>
              simp only [Option.some_bind]
              by_cases hr5 : sig.length ≤ len_r + 5
              · rw [if_pos hr5]; rfl
              · rw [if_neg hr5]
                cases h5 : sig[len_r + 5]? with
                | none => rw [List.getElem?_eq_none_iff] at h5; omega
                | some len_s =>
                  simp only [Option.some_bind]
                  by_cases hsum : len_r + len_s + 7 ≠ sig.length
                  · rw [if_pos hsum]; rfl
                  · rw [if_neg hsum]
                    push_neg at hsum
                    cases h2 : sig[2]? with
                    | none => rw [List.getElem?_eq_none_iff] at h2; omega
                    | some s2 =>
                      simp only [Option.some_bind]
                      by_cases ht2 : s2 ≠ 2
                      · rw [if_pos ht2]; rfl
                      · rw [if_neg ht2]
                        by_cases hr0 : len_r = 0
                        · rw [if_pos hr0]; rfl
                        · rw [if_neg hr0]
                          cases hi4 : sig[4]? with
                          | none => rw [List.getElem?_eq_none_iff] at hi4; omega
                          | some s4 =>
                            simp only [Option.some_bind]
                            by_cases hneg : s4 &&& 0x80 ≠ 0
                            · rw [if_pos hneg]; rfl
                            · rw [if_neg hneg]
                              by_cases hpad : 1 < len_r ∧ s4 = 0
                              · rw [if_pos hpad]
                                cases hi5 : sig[5]? with
                                | none => rw [List.getElem?_eq_none_iff] at hi5; omega
                                | some s5 =>
                                  simp only [Option.some_bind]
                                  by_cases hz : (0xff ^^^ (s5 &&& 0x80)) ≠ 0
                                  · rw [if_pos hz]; rfl
                                  · rw [if_neg hz]
                                    exact sig_s_checks_isSome sig len_r len_s hsum
                              · rw [if_neg hpad]
                                exact sig_s_checks_isSome sig len_r len_s hsum

/-! ## Claim theorems -/

/-- C1 (code bug evidence): the spec's verdict contract says `eval_script`
must return "stack non-empty and top not all-zero"; the source computes that
value (`script_verdict`, lines 364-367) but unconditionally returns
`Ok(true)` (line 369). At the failing input (empty script, empty stack) the
evaluation finishes without error and returns `true` even though the
claimed verdict at the empty final stack is `false`. -/
theorem eval_script_returns_fixed_true :
    eval_script [] [] no_flags NoopSignatureChecker SignatureVersion.Base
        = .ok (true, []) ∧
      script_verdict [] = false := by
  exact ⟨rfl, rfl⟩

/-- C2 (code bug evidence): with `verify_clocktimeverify` and
`verify_discourage_upgradable_nops` both off, the time-lock opcode is NOT a
no-op: the source is missing the early exit, falls through into the full
check, and errors with `InvalidStackOperation` on an empty stack instead of
leaving it unchanged. -/
theorem cltv_flag_off_still_checks_stack :
    eval_script [] [OP_CHECKLOCKTIMEVERIFY] no_flags NoopSignatureChecker
        SignatureVersion.Base = .error Error.InvalidStackOperation := by
  rfl

/-- C3 (code bug evidence): a signature whose R element needs its leading
zero byte (`lenR = 2`, R = `[0x00, 0x80]`, next byte's high bit set) passes
every earlier structural check, yet `is_valid_signature_encoding` rejects
it: the Rust `!` in `(!(sig[5] & 0x80)) != 0` (line 161) is the bitwise
complement on `u8`, which is non-zero for both `0x00` and `0x80`, so the
branch rejects every leading zero of a multi-byte R, contradicting the
function's own comment (lines 159-160). -/
theorem der_required_zero_r_rejected :
    is_valid_signature_encoding?
        [0x30, 0x07, 0x02, 0x02, 0x00, 0x80, 0x02, 0x01, 0x01, 0x01] = some false := by
  rfl

/-- C4 (code bug evidence): `is_defined_hashtype_signature` tests
`n_hashtype < All && n_hashtype > Single` (line 208) — an unsatisfiable
conjunction (the upstream rule uses a disjunction) — so it accepts the
undefined masked hash type 4 that the claim says must be rejected. -/
theorem hashtype_check_accepts_undefined :
    is_defined_hashtype_signature [0x04] = true := by
  rfl

/-- C5: `is_valid_signature_encoding` is total over arbitrary byte strings —
every slice index is in bounds, so the `Option`-instrumented embedding never
reaches the panic outcome — and every input shorter than 9 bytes or longer
than 73 bytes is rejected by the leading size check. -/
theorem sig_encoding_total_and_length_bounded (sig : List Nat) :
    (is_valid_signature_encoding? sig).isSome = true ∧
      (sig.length < 9 ∨ 73 < sig.length →
        is_valid_signature_encoding? sig = some false) := by
  refine ⟨sig_encoding_isSome sig, fun h => ?_⟩
  unfold is_valid_signature_encoding?
  rw [if_pos h]

/-- Witness for C5 at the concrete inputs `[]` (too short) and
`List.replicate 74 0` (too long). -/
theorem sig_encoding_total_witness :
    is_valid_signature_encoding? [] = some false ∧
      is_valid_signature_encoding? (List.replicate 74 0) = some false := by
  exact ⟨(sig_encoding_total_and_length_bounded []).2 (by decide),
    (sig_encoding_total_and_length_bounded (List.replicate 74 0)).2 (by decide)⟩

/-- C6: exact case characterization of `check_minimal_push`: empty data only
with `OP_0`; a single byte 1..16 only with the matching `OP_1 + (b-1)`; the
single byte `0x81` only with `OP_1NEGATE`; any other data of length ≤ 75
only with the direct push opcode equal to the length; ≤ 255 only with
`OP_PUSHDATA1`; ≤ 65535 only with `OP_PUSHDATA2`; longer data with every
opcode. -/
theorem check_minimal_push_characterization (data : List Nat) (opcode : Nat) :
    check_minimal_push data opcode = true ↔
      (data = [] ∧ opcode = OP_0)
      ∨ (∃ b, data = [b] ∧ 1 ≤ b ∧ b ≤ 16 ∧ opcode = OP_1 + (b - 1))
      ∨ (data = [0x81] ∧ opcode = OP_1NEGATE)
      ∨ (data ≠ [] ∧ data.length ≤ 75
          ∧ (∀ b, data = [b] → (b = 0 ∨ 16 < b) ∧ b ≠ 0x81)
          ∧ opcode = data.length)
      ∨ (75 < data.length ∧ data.length ≤ 255 ∧ opcode = OP_PUSHDATA1)
      ∨ (255 < data.length ∧ data.length ≤ 65535 ∧ opcode = OP_PUSHDATA2)
      ∨ 65535 < data.length := by
  match data with
  | [] =>
    simp [check_minimal_push, OP_0]
  | [b] =>
    by_cases h16 : 1 ≤ b ∧ b ≤ 16
    · simp [check_minimal_push, h16, OP_1, OP_1NEGATE]
      omega
    · by_cases h81 : b = 0x81
      · subst h81
        simp [check_minimal_push, h16, OP_1, OP_1NEGATE]
      · simp [check_minimal_push, h16, h81, OP_1, OP_1NEGATE]
        omega
  | a :: c :: t =>
    simp only [check_minimal_push]
    split_ifs with h1 h2 h3 h4 h5 h6 <;>
      simp_all [OP_0, OP_1, OP_1NEGATE, OP_PUSHDATA1, OP_PUSHDATA2] <;>
      omega

/-- Witness for C6 at a concrete input, through the characterization. -/
theorem check_minimal_push_characterization_witness :
    check_minimal_push [0x81] OP_1NEGATE = true :=
  (check_minimal_push_characterization [0x81] OP_1NEGATE).mpr
    (Or.inr (Or.inr (Or.inl ⟨rfl, rfl⟩)))

/-- C7 (counterexample): the claim evaluates the four `0x5a`-push scripts
with minimal-push enforcement (`verify_minimaldata`) ENABLED and expects all
four to succeed — but `OP_PUSHDATA1` with a 1-byte payload is not the
minimal encoding (`check_minimal_push` demands the direct push opcode 1),
so the second script errors with `Minimaldata` instead of succeeding. -/
theorem push_0x5a_minimaldata_errors :
    eval_script [] [OP_PUSHDATA1, 0x01, 0x5a] minimal_push_flags NoopSignatureChecker
        SignatureVersion.Base = .error Error.Minimaldata := by
  rfl

/-- C7 (amended): with minimal-push enforcement disabled — the repository's
`test_push_data` test runs with only `verify_p2sh` set — the four scripts
pushing the single byte `0x5a` via the direct 1-byte push, `OP_PUSHDATA1`,
`OP_PUSHDATA2` and `OP_PUSHDATA4` all evaluate without error from the empty
stack to the identical final stack holding exactly the single byte `0x5a`. -/
theorem push_0x5a_four_encodings_agree :
    eval_script [] [OP_PUSHBYTES_1, 0x5a] push_test_flags NoopSignatureChecker
        SignatureVersion.Base = .ok (true, [[0x5a]]) ∧
      eval_script [] [OP_PUSHDATA1, 0x01, 0x5a] push_test_flags NoopSignatureChecker
        SignatureVersion.Base = .ok (true, [[0x5a]]) ∧
      eval_script [] [OP_PUSHDATA2, 0x01, 0x00, 0x5a] push_test_flags NoopSignatureChecker
        SignatureVersion.Base = .ok (true, [[0x5a]]) ∧
      eval_script [] [OP_PUSHDATA4, 0x01, 0x00, 0x00, 0x00, 0x5a] push_test_flags
        NoopSignatureChecker SignatureVersion.Base = .ok (true, [[0x5a]]) := by
  exact ⟨rfl, rfl, rfl, rfl⟩

/-- C8: executing the equality opcode on a stack with fewer than two items
errors with `InvalidStackOperation`; on `a :: b :: rest` it pops both and
pushes the single byte `1` when they are byte-for-byte equal and `0`
otherwise, so the stack shrinks by exactly one item — for every initial
stack, flags, checker and version. -/
theorem op_equal_semantics (stack : List (List Nat)) (flags : VerificationFlags)
    (checker : SignatureChecker) (version : SignatureVersion) :
    eval_script stack [OP_EQUAL] flags checker version =
      match stack with
      | a :: b :: rest => .ok (true, (if a = b then [1] else [0]) :: rest)
      | _ => .error Error.InvalidStackOperation := by
  match stack with
  | [] => rfl
  | [a] => rfl
  | a :: b :: rest => rfl

/-- C9: the dispatch loop of `eval_script` stops at `Normal OP_NOP`
(the source `break`s there): for every prefix `P`, suffix `S`, flags,
checker and stack, evaluating `P ++ [Normal OP_NOP] ++ S` is identical to
evaluating `P ++ [Normal OP_NOP]` — no instruction of `S` is executed and
the resulting stack and outcome agree. -/
theorem op_nop_halts_evaluation (flags : VerificationFlags) (checker : SignatureChecker)
    (P S : List Instruction) (stack : List (List Nat)) :
    eval_loop flags checker (P ++ Instruction.Normal OP_NOP :: S) stack
      = eval_loop flags checker (P ++ [Instruction.Normal OP_NOP]) stack := by
  induction P generalizing stack with
  | nil => rfl
  | cons i P ih =>
    simp only [List.cons_append, eval_loop]
    cases run_step flags checker i stack with
    | error e => rfl
    | ok o =>
      cases o with
      | none => rfl
      | some s2 => exact ih s2

/-- C10: `check_signature_encoding` never returns `Ok(false)` — for every
signature, flags record and (abstract) low-S predicate its result is either
`Ok(true)` or an error, because `is_low_der_signature` only ever returns
`Ok(true)` or an error, making the guarded `Ok(false)` branch unreachable. -/
theorem check_signature_encoding_no_ok_false (low_s : List Nat → Bool) (sig : List Nat)
    (flags : VerificationFlags) :
    check_signature_encoding low_s sig flags = .ok true ∨
      ∃ e, check_signature_encoding low_s sig flags = .error e := by
  unfold check_signature_encoding
  by_cases h1 : sig.isEmpty = true
  · rw [if_pos h1]; exact Or.inl rfl
  · rw [if_neg h1]
    by_cases h2 : ((flags.verify_dersig || flags.verify_low_s || flags.verify_strictenc)
        && !(is_valid_signature_encoding sig)) = true
    · rw [if_pos h2]; exact Or.inr ⟨Error.SignatureDer, rfl⟩
    · rw [if_neg h2]
      by_cases hl : flags.verify_low_s = true
      · rw [if_pos hl]
        unfold is_low_der_signature
        by_cases hv : ¬ is_valid_signature_encoding sig = true
        · rw [if_pos hv]
          exact Or.inr ⟨Error.SignatureDer, rfl⟩
        · rw [if_neg hv]
          by_cases hlow : ¬ low_s sig = true
          · rw [if_pos hlow]
            exact Or.inr ⟨Error.SignatureHighS, rfl⟩
          · rw [if_neg hlow]
            by_cases hst : (flags.verify_strictenc
                && !(is_defined_hashtype_signature sig)) = true
            · refine Or.inr ⟨Error.SignatureHashtype, ?_⟩
              simp [Except.bind, hl, hst]
            · refine Or.inl ?_
              simp [Except.bind, hl, hst]
      · rw [if_neg hl]
        by_cases hst : (flags.verify_strictenc
            && !(is_defined_hashtype_signature sig)) = true
        · refine Or.inr ⟨Error.SignatureHashtype, ?_⟩
          simp [Except.bind, hl, hst]
        · refine Or.inl ?_
          simp [Except.bind, hl, hst]
